import Mathlib

/-!
Shallow embedding of the ITC conference-backend core (Go):
the auth middleware (`RequireAuth`, `OptionalAuth`), the registration
handlers (`CreateRegistration`, `UpdateRegistration`, …) and the login
profile upsert (`saveUserToFirestore`), together with an in-memory model
of the Firestore collections they touch.  Time is modelled as `Nat`
(`time.Now()` becomes an explicit `now` parameter); external calls that
can fail (Firestore reads/writes, the Firebase Auth provider) are
modelled with explicit fault flags or `Option`-valued provider
functions, and every handler returns the list of external calls it made
so that "no store/provider access" claims are statable.
-/

namespace ITC

/-- `models.User` (part_000, `models` package): user profile linked to
Firebase Auth.  `time.Time` fields are modelled as `Nat` (zero value 0). -/
structure User where
  uid : String
  email : String
  displayName : String
  photoURL : String
  provider : String
  emailVerified : Bool
  createdAt : Nat
  updatedAt : Nat
  lastLoginAt : Nat
  deriving Repr, DecidableEq

/-- The zero value of `models.User` (Go zero struct). -/
def User.zero : User :=
  { uid := "", email := "", displayName := "", photoURL := "", provider := ""
    emailVerified := false, createdAt := 0, updatedAt := 0, lastLoginAt := 0 }

/-- `models.Registration`: one conference registration document.  The `id`
field carries the Firestore document id (`firestore:"-"` in Go: it is the
doc ref id, set after reads/writes). -/
structure Registration where
  id : String
  userId : String
  firstName : String
  lastName : String
  email : String
  phone : String
  organization : String
  jobTitle : String
  country : String
  city : String
  dietaryReqs : String
  specialNeeds : String
  ticketType : String
  sessionsOfInt : List String
  paymentStatus : String
  registrationDate : Nat
  createdAt : Nat
  updatedAt : Nat
  deriving Repr, DecidableEq

/-- `models.RegistrationInput`: the create/update request body. -/
structure RegistrationInput where
  firstName : String
  lastName : String
  email : String
  phone : String
  organization : String
  jobTitle : String
  country : String
  city : String
  dietaryReqs : String
  specialNeeds : String
  ticketType : String
  sessionsOfInt : List String
  deriving Repr, DecidableEq

/-- Splitting a character list around every occurrence of `sep`
(accumulator holds the current piece, reversed). -/
def splitChAux (sep : Char) : List Char → List Char → List (List Char)
  | [], acc => [acc.reverse]
  | c :: cs, acc =>
    if c = sep then acc.reverse :: splitChAux sep cs []
    else splitChAux sep cs (c :: acc)

/-- Go's `strings.Split(s, sep)` for a one-character separator (the code
only ever splits on a single space; the email model splits on `'@'`):
splits around every occurrence, keeping empty pieces, and maps the empty
string to `[""]`. -/
def splitCh (sep : Char) (s : String) : List String :=
  (splitChAux sep s.data []).map (fun l => ⟨l⟩)

/-- Email-format check of the gin binding validator (external library,
outside this repository).  Modelled from the spec: "Validates required
fields (first/last name, email format, country, ticket type non-empty)";
we require the shape `local@domain` with both parts non-empty. -/
def emailOk (s : String) : Bool :=
  match splitCh '@' s with
  | [l, d] => l ≠ "" && d ≠ ""
  | _ => false

/-- The `binding:"required"` / `binding:"required,email"` tags on
`models.RegistrationInput`, as enforced by `c.ShouldBindJSON`: first/last
name, email, country and ticket type must be non-empty and the email must
have a valid format. -/
def validInput (i : RegistrationInput) : Bool :=
  i.firstName ≠ "" && i.lastName ≠ "" && i.email ≠ "" && emailOk i.email &&
  i.country ≠ "" && i.ticketType ≠ ""

/-- In-memory model of the two Firestore collections the core touches.
`registrations` stores each document's data together with its document id
(in `Registration.id`); `users` is keyed by `User.uid` (the `users`
collection uses the uid as document id).  `nextId` feeds the
store-assigned document ids of `Collection.Add`. -/
structure Store where
  registrations : List Registration
  users : List User
  nextId : Nat
  deriving Repr, DecidableEq

/-- The store-assigned document id for the `n`-th `Add` call. -/
def mkDocId (n : Nat) : String := "doc" ++ toString n

/-- External calls a handler can make, recorded in order. -/
inductive ExtCall where
  | providerVerify
  | providerGetUser
  | storeQuery
  | storeGet
  | storeAdd
  | storeSet
  | storeDelete
  deriving Repr, DecidableEq

/-- `getUserRegistration` (registration handler, part_001 lines 319-334):
query the `registrations` collection by `userId == uid`, `Limit(1)`.
`fault` models `iter.Next()` failing with a non-`Done` error (or
`doc.DataTo` failing); absence of a matching document is the
`iterator.Done` error.  Both failure shapes return `(nil, err)` in Go,
hence a single `error` outcome here. -/
def getUserRegistration (st : Store) (uid : String) (fault : Bool) :
    Except Unit Registration :=
  if fault then .error ()
  else
    match st.registrations.find? (fun r => r.userId == uid) with
    | some r => .ok r
    | none => .error ()

/-- `firebase.Client` as seen by the middleware: `VerifyIDToken` maps a
token string to its subject uid (`none` = any verification error) and
`GetUser` fetches the provider-side user record (`none` = lookup error).
Only the fields the Go code reads are modelled. -/
structure UserRecord where
  uid : String
  email : String
  displayName : String
  photoURL : String
  emailVerified : Bool
  deriving Repr, DecidableEq

/-- The identity-provider client (external collaborator), as a pair of
black-box functions. -/
structure Provider where
  verifyIDToken : String → Option String
  getUser : String → Option UserRecord

/-- Outcome of the `RequireAuth` middleware: either an aborted request
with an HTTP status and message, or the request proceeds with a `user`
object and `uid` set in the gin context. -/
inductive AuthOutcome where
  | reject (status : Nat) (message : String)
  | accept (user : User) (uid : String)
  deriving Repr, DecidableEq

/-- The user object `RequireAuth`/`OptionalAuth` builds from the Firebase
Auth user record (part_000 lines 362-369 and 430-437): remaining fields
keep their Go zero values. -/
def baseUser (rec : UserRecord) : User :=
  { User.zero with
    uid := rec.uid, email := rec.email, displayName := rec.displayName
    photoURL := rec.photoURL, emailVerified := rec.emailVerified }

/-- The token-resolution tail of `RequireAuth` (after header parsing):
verify the ID token, fetch the Firebase Auth user record, then
best-effort enrich from the Firestore `users` document
(`userDocFault` = the `Get` errors, `dataToFault` = `doc.DataTo` errors;
either way the merge is skipped and the request still proceeds). -/
def resolveToken (p : Provider) (st : Store) (userDocFault dataToFault : Bool)
    (idToken : String) : AuthOutcome × List ExtCall :=
  match p.verifyIDToken idToken with
  | none => (.reject 401 "Invalid or expired token", [.providerVerify])
  | some uid =>
    match p.getUser uid with
    | none => (.reject 401 "Failed to retrieve user information",
               [.providerVerify, .providerGetUser])
    | some rec =>
      let user := baseUser rec
      let user :=
        match (if userDocFault then none else st.users.find? (fun u => u.uid == uid)) with
        | some fsUser =>
          if dataToFault then user
          else { user with
                 createdAt := fsUser.createdAt, updatedAt := fsUser.updatedAt
                 lastLoginAt := fsUser.lastLoginAt, provider := fsUser.provider }
        | none => user
      (.accept user uid, [.providerVerify, .providerGetUser, .storeGet])

/-- `AuthMiddleware.RequireAuth` (part_000 lines 314-391).  The
`Authorization` header is a `String`; `c.GetHeader` returns `""` when the
header is absent, exactly as checked by the Go code. -/
def requireAuth (p : Provider) (st : Store) (userDocFault dataToFault : Bool)
    (header : String) : AuthOutcome × List ExtCall :=
  if header = "" then
    (.reject 401 "Authorization header is required", [])
  else
    let tokenParts := splitCh ' ' header
    if tokenParts.length ≠ 2 ∨ tokenParts.headD "" ≠ "Bearer" then
      (.reject 401 "Invalid authorization header format. Use: Bearer <token>", [])
    else
      resolveToken p st userDocFault dataToFault (tokenParts.getD 1 "")

/-- Outcome of `OptionalAuth`: the request always proceeds, either
anonymously or with an identity set in the context. -/
inductive OptOutcome where
  | anonymous
  | identified (user : User) (uid : String)
  deriving Repr, DecidableEq

/-- The token-resolution tail of `OptionalAuth` (after header parsing):
the same verification and user-record fetch as `resolveToken`, but every
failure becomes `anonymous` and there is no Firestore enrichment read on
this path. -/
def optResolveToken (p : Provider) (idToken : String) :
    OptOutcome × List ExtCall :=
  match p.verifyIDToken idToken with
  | none => (.anonymous, [.providerVerify])
  | some uid =>
    match p.getUser uid with
    | none => (.anonymous, [.providerVerify, .providerGetUser])
    | some rec => (.identified (baseUser rec) uid,
                   [.providerVerify, .providerGetUser])

/-- `AuthMiddleware.OptionalAuth` (part_000 lines 393-446): same header
parsing and verification steps as `RequireAuth`, but every failure falls
through to `c.Next()` with no user context; on success the user object
is built from the Auth record only. -/
def optionalAuth (p : Provider) (header : String) : OptOutcome × List ExtCall :=
  if header = "" then (.anonymous, [])
  else
    let tokenParts := splitCh ' ' header
    if tokenParts.length ≠ 2 ∨ tokenParts.headD "" ≠ "Bearer" then
      (.anonymous, [])
    else
      optResolveToken p (tokenParts.getD 1 "")

/-- The JSON body of `RegistrationResponse` (registration handler):
HTTP status plus `success`, `message`, and the optional `registration`
field (`omitempty`: `none` = field absent). -/
structure Response where
  status : Nat
  success : Bool
  message : String
  registration : Option Registration
  deriving Repr, DecidableEq

/-- The `models.Registration` value `CreateRegistration` builds from the
input (part_001 lines 81-100): `paymentStatus = "pending"`, all three
timestamps set to `now`, `userId` from the authenticated user, `ID`
still empty (set after `Add`). -/
def newRegistration (uid : String) (input : RegistrationInput) (now : Nat) :
    Registration :=
  { id := "", userId := uid
    firstName := input.firstName, lastName := input.lastName
    email := input.email, phone := input.phone
    organization := input.organization, jobTitle := input.jobTitle
    country := input.country, city := input.city
    dietaryReqs := input.dietaryReqs, specialNeeds := input.specialNeeds
    ticketType := input.ticketType, sessionsOfInt := input.sessionsOfInt
    paymentStatus := "pending"
    registrationDate := now, createdAt := now, updatedAt := now }

/-- `RegistrationHandler.CreateRegistration` (part_001 lines 38-119) for
an authenticated request (the middleware has set the user in the
context).  `queryFault` makes the duplicate-check read fail (its error is
discarded: `existingReg, _ := …`); `addFault` makes the Firestore `Add`
fail.  Returns the response, the new store state and the external calls
made. -/
def createRegistration (st : Store) (uid : String) (input : RegistrationInput)
    (now : Nat) (queryFault addFault : Bool) :
    Response × Store × List ExtCall :=
  if ¬ validInput input then
    ({ status := 400, success := false
       message := "Invalid request: validation failed", registration := none },
     st, [])
  else
    match getUserRegistration st uid queryFault with
    | .ok existingReg =>
      ({ status := 409, success := false
         message := "User already has a registration. Please update instead."
         registration := some existingReg }, st, [.storeQuery])
    | .error _ =>
      let registration := newRegistration uid input now
      if addFault then
        ({ status := 500, success := false
           message := "Failed to create registration", registration := none },
         st, [.storeQuery, .storeAdd])
      else
        let docId := mkDocId st.nextId
        let saved := { registration with id := docId }
        ({ status := 201, success := true
           message := "Registration created successfully"
           registration := some saved },
         { st with registrations := st.registrations ++ [saved]
                   nextId := st.nextId + 1 },
         [.storeQuery, .storeAdd])

/-- `RegistrationHandler.GetMyRegistration` (part_001 lines 122-156). -/
def getMyRegistration (st : Store) (uid : String) (queryFault : Bool) :
    Response × List ExtCall :=
  match getUserRegistration st uid queryFault with
  | .error _ =>
    ({ status := 404, success := false, message := "Registration not found"
       registration := none }, [.storeQuery])
  | .ok registration =>
    ({ status := 200, success := true
       message := "Registration retrieved successfully"
       registration := some registration }, [.storeQuery])

/-- The merge-write of `UpdateRegistration` (part_001 lines 200-216):
`Set(…, updates, firestore.MergeAll)` overwrites exactly the twelve
user-editable fields plus `updatedAt`; `userId`, `paymentStatus`,
`registrationDate`, `createdAt` and the document id are not in the map
and stay untouched. -/
def mergeUpdate (r : Registration) (input : RegistrationInput) (now : Nat) :
    Registration :=
  { r with
    firstName := input.firstName, lastName := input.lastName
    email := input.email, phone := input.phone
    organization := input.organization, jobTitle := input.jobTitle
    country := input.country, city := input.city
    dietaryReqs := input.dietaryReqs, specialNeeds := input.specialNeeds
    ticketType := input.ticketType, sessionsOfInt := input.sessionsOfInt
    updatedAt := now }

/-- `RegistrationHandler.UpdateRegistration` (part_001 lines 159-233).
`preReadFault` fails the lookup of the existing record (404);
`setFault` fails the merge-write (500); `postReadFault` fails the
re-read after the write, whose error is discarded
(`updatedReg, _ := …`). -/
def updateRegistration (st : Store) (uid : String) (input : RegistrationInput)
    (now : Nat) (preReadFault setFault postReadFault : Bool) :
    Response × Store × List ExtCall :=
  if ¬ validInput input then
    ({ status := 400, success := false
       message := "Invalid request: validation failed", registration := none },
     st, [])
  else
    match getUserRegistration st uid preReadFault with
    | .error _ =>
      ({ status := 404, success := false
         message := "Registration not found. Please create one first."
         registration := none }, st, [.storeQuery])
    | .ok existingReg =>
      if setFault then
        ({ status := 500, success := false
           message := "Failed to update registration", registration := none },
         st, [.storeQuery, .storeSet])
      else
        let st' := { st with
          registrations := st.registrations.map
            (fun d => if d.id == existingReg.id then mergeUpdate d input now else d) }
        let updatedReg :=
          match getUserRegistration st' uid postReadFault with
          | .ok r => some r
          | .error _ => none
        ({ status := 200, success := true
           message := "Registration updated successfully"
           registration := updatedReg },
         st', [.storeQuery, .storeSet, .storeQuery])

/-- `RegistrationHandler.DeleteRegistration` (part_001 lines 236-281). -/
def deleteRegistration (st : Store) (uid : String)
    (queryFault deleteFault : Bool) : Response × Store × List ExtCall :=
  match getUserRegistration st uid queryFault with
  | .error _ =>
    ({ status := 404, success := false, message := "Registration not found"
       registration := none }, st, [.storeQuery])
  | .ok existingReg =>
    if deleteFault then
      ({ status := 500, success := false
         message := "Failed to delete registration", registration := none },
       st, [.storeQuery, .storeDelete])
    else
      ({ status := 200, success := true
         message := "Registration deleted successfully", registration := none },
       { st with registrations :=
           st.registrations.filter (fun d => d.id ≠ existingReg.id) },
       [.storeQuery, .storeDelete])

/-- Writing a document with `docRef.Set` on the `users` collection
(document id = uid): replaces the document if present, creates it
otherwise. -/
def setUserDoc (users : List User) (u : User) : List User :=
  if users.any (fun v => v.uid == u.uid) then
    users.map (fun v => if v.uid == u.uid then u else v)
  else users ++ [u]

/-- `AuthHandler.saveUserToFirestore` (part_001 lines 539-559): read the
existing `users` document; if it is missing or the read fails, set
`createdAt = now`; if it exists and decodes, preserve its `createdAt`
(`dataToFault` = `doc.DataTo` fails, leaving the incoming `createdAt`
untouched).  Then set `updatedAt = now` and write the WHOLE user struct
with `docRef.Set` (no merge option): every field of the stored document
is replaced. -/
def saveUserToFirestore (st : Store) (user : User) (now : Nat)
    (getFault dataToFault setFault : Bool) : Except Unit Store :=
  let user1 :=
    match (if getFault then none else st.users.find? (fun v => v.uid == user.uid)) with
    | none => { user with createdAt := now }
    | some existingUser =>
      if dataToFault then user
      else { user with createdAt := existingUser.createdAt }
  let user2 := { user1 with updatedAt := now }
  if setFault then .error ()
  else .ok { st with users := setUserDoc st.users user2 }

/-- The user object `GoogleLogin` builds before the profile save
(part_001 lines 409-416): `Provider = "google.com"`,
`LastLoginAt = now`; `EmailVerified`, `CreatedAt`, `UpdatedAt` are left
at their Go zero values. -/
def googleLoginUser (rec : UserRecord) (now : Nat) : User :=
  { User.zero with
    uid := rec.uid, email := rec.email, displayName := rec.displayName
    photoURL := rec.photoURL, provider := "google.com", lastLoginAt := now }

/-! Concrete values used to exercise the model (the spec's "Ada Lovelace"
scenario and a one-token provider). -/

/-- The registration input of the spec's scenario. -/
def adaInput : RegistrationInput :=
  { firstName := "Ada", lastName := "Lovelace", email := "ada@example.com"
    phone := "", organization := "", jobTitle := "", country := "UK"
    city := "", dietaryReqs := "", specialNeeds := "", ticketType := "standard"
    sessionsOfInt := [] }

/-- An empty store. -/
def emptyStore : Store := ⟨[], [], 0⟩

/-- A provider-side user record for subject `"u"`. -/
def demoRecord : UserRecord :=
  { uid := "u", email := "ada@example.com", displayName := "Ada"
    photoURL := "pic", emailVerified := true }

/-- A provider accepting the single token `"tok"` for subject `"u"`. -/
def demoProvider : Provider :=
  { verifyIDToken := fun t => if t == "tok" then some "u" else none
    getUser := fun uid => if uid == "u" then some demoRecord else none }

/-- A stored Firestore profile for subject `"u"` with non-zero enrichment
fields. -/
def demoProfile : User :=
  { User.zero with
    uid := "u", email := "old@example.com", emailVerified := true
    provider := "google.com", createdAt := 3, updatedAt := 4, lastLoginAt := 5 }

/-- A store holding only `demoProfile` in the `users` collection. -/
def demoStore : Store := ⟨[], [demoProfile], 0⟩

/-! Helper lemmas about `List.find?`, the primitive behind the
`userId == uid` lookup and the `users` document lookup. -/

theorem find?_congr_pred {α : Type} {p q : α → Bool} (h : ∀ x, p x = q x) :
    ∀ l : List α, l.find? p = l.find? q := by
  intro l
  induction l with
  | nil => rfl
  | cons a t ih =>
    rw [List.find?_cons, List.find?_cons, h a]
    cases q a <;> simp [ih]

theorem find?_map_pres {α : Type} (p : α → Bool) (f : α → α)
    (hpf : ∀ x, p (f x) = p x) (l : List α) :
    (l.map f).find? p = (l.find? p).map f := by
  rw [List.find?_map]
  rw [show (p ∘ f) = fun x => p (f x) from rfl]
  rw [find?_congr_pred (fun x => hpf x) l]

theorem getUserRegistration_ok_iff (st : Store) (uid : String)
    (r : Registration) :
    getUserRegistration st uid false = .ok r ↔
      st.registrations.find? (fun d => d.userId == uid) = some r := by
  unfold getUserRegistration
  cases h : st.registrations.find? (fun d => d.userId == uid) <;> simp [h]

theorem getUserRegistration_error_iff (st : Store) (uid : String) :
    getUserRegistration st uid false = .error () ↔
      st.registrations.find? (fun d => d.userId == uid) = none := by
  unfold getUserRegistration
  cases h : st.registrations.find? (fun d => d.userId == uid) <;> simp [h]

/-- `mkDocId` never returns the empty string. -/
theorem mkDocId_ne_empty (n : Nat) : mkDocId n ≠ "" := by
  intro h
  have hd : ("doc" ++ toString n).data = "".data := congrArg String.data h
  rw [String.data_append] at hd
  simp at hd

/-- Reduction of `createRegistration` when the duplicate check finds
nothing and the input is valid: the fresh-registration branch fires. -/
theorem createRegistration_fresh (st : Store) (uid : String)
    (i : RegistrationInput) (now : Nat)
    (hfresh : st.registrations.find? (fun d => d.userId == uid) = none)
    (hv : validInput i = true) :
    createRegistration st uid i now false false =
      ({ status := 201, success := true
         message := "Registration created successfully"
         registration := some { newRegistration uid i now with id := mkDocId st.nextId } },
       { st with
         registrations :=
           st.registrations ++ [{ newRegistration uid i now with id := mkDocId st.nextId }]
         nextId := st.nextId + 1 },
       [.storeQuery, .storeAdd]) := by
  unfold createRegistration
  rw [(getUserRegistration_error_iff st uid).mpr hfresh]
  simp [hv]

/-- C4: for every valid registration input and subject with no existing
Registration, create succeeds with status 201 and the persisted and
returned Registration has `paymentStatus = "pending"`,
`registrationDate`, `createdAt` and `updatedAt` all equal to the
creation time, `userId` equal to the subject identifier, and a non-empty
store-assigned document id attached to the result. -/
theorem create_fresh_sets_defaults (st : Store) (uid : String)
    (i : RegistrationInput) (now : Nat)
    (hfresh : getUserRegistration st uid false = .error ())
    (hv : validInput i = true) :
    ∃ saved : Registration,
      createRegistration st uid i now false false =
        ({ status := 201, success := true
           message := "Registration created successfully"
           registration := some saved },
         { st with registrations := st.registrations ++ [saved]
                   nextId := st.nextId + 1 },
         [.storeQuery, .storeAdd]) ∧
      saved.paymentStatus = "pending" ∧
      saved.registrationDate = now ∧
      saved.createdAt = now ∧
      saved.updatedAt = now ∧
      saved.userId = uid ∧
      saved.id = mkDocId st.nextId ∧
      saved.id ≠ "" ∧
      saved.firstName = i.firstName ∧
      saved.lastName = i.lastName ∧
      saved.email = i.email ∧
      saved.country = i.country ∧
      saved.ticketType = i.ticketType := by
  refine ⟨{ newRegistration uid i now with id := mkDocId st.nextId }, ?_, ?_, ?_, ?_, ?_, ?_, ?_, ?_, ?_, ?_, ?_, ?_, ?_⟩
  · exact createRegistration_fresh st uid i now
      ((getUserRegistration_error_iff st uid).mp hfresh) hv
  all_goals first
    | rfl
    | exact mkDocId_ne_empty st.nextId

/-- C4 witness: the Ada scenario on an empty store at time 1. -/
theorem create_fresh_sets_defaults_witness :
    getUserRegistration emptyStore "u" false = .error () ∧
    validInput adaInput = true ∧
    (∃ saved : Registration,
      createRegistration emptyStore "u" adaInput 1 false false =
        ({ status := 201, success := true
           message := "Registration created successfully"
           registration := some saved },
         { emptyStore with
             registrations := emptyStore.registrations ++ [saved]
             nextId := emptyStore.nextId + 1 },
         [.storeQuery, .storeAdd]) ∧
      saved.paymentStatus = "pending" ∧
      saved.registrationDate = 1 ∧
      saved.createdAt = 1 ∧
      saved.updatedAt = 1 ∧
      saved.userId = "u" ∧
      saved.id = mkDocId emptyStore.nextId ∧
      saved.id ≠ "" ∧
      saved.firstName = adaInput.firstName ∧
      saved.lastName = adaInput.lastName ∧
      saved.email = adaInput.email ∧
      saved.country = adaInput.country ∧
      saved.ticketType = adaInput.ticketType) :=
  ⟨rfl, by decide,
   create_fresh_sets_defaults emptyStore "u" adaInput 1 rfl (by decide)⟩

/-- C1: for a fixed subject under non-concurrent execution, create
followed by create returns on the second call a 409 conflict carrying
the first (existing) record, and no second Registration document is
written to the store (the store after the second call equals the store
after the first). -/
theorem create_then_create_conflict (st : Store) (uid : String)
    (i1 i2 : RegistrationInput) (n1 n2 : Nat)
    (hfresh : getUserRegistration st uid false = .error ())
    (hv1 : validInput i1 = true) (hv2 : validInput i2 = true) :
    ∃ saved st1,
      createRegistration st uid i1 n1 false false =
        ({ status := 201, success := true
           message := "Registration created successfully"
           registration := some saved }, st1, [.storeQuery, .storeAdd]) ∧
      createRegistration st1 uid i2 n2 false false =
        ({ status := 409, success := false
           message := "User already has a registration. Please update instead."
           registration := some saved }, st1, [.storeQuery]) := by
  have hfind := (getUserRegistration_error_iff st uid).mp hfresh
  refine ⟨{ newRegistration uid i1 n1 with id := mkDocId st.nextId },
    { st with
        registrations :=
          st.registrations ++ [{ newRegistration uid i1 n1 with id := mkDocId st.nextId }]
        nextId := st.nextId + 1 },
    createRegistration_fresh st uid i1 n1 hfind hv1, ?_⟩
  have hok : getUserRegistration
      { st with
          registrations :=
            st.registrations ++ [{ newRegistration uid i1 n1 with id := mkDocId st.nextId }]
          nextId := st.nextId + 1 } uid false =
      .ok { newRegistration uid i1 n1 with id := mkDocId st.nextId } := by
    rw [getUserRegistration_ok_iff]
    show (st.registrations ++ _).find? _ = _
    rw [List.find?_append, hfind]
    simp [newRegistration]
  unfold createRegistration
  rw [hok]
  simp [hv2]

/-- C1 witness: the double-create scenario on an empty store. -/
theorem create_then_create_conflict_witness :
    getUserRegistration emptyStore "u" false = .error () ∧
    validInput adaInput = true ∧
    (∃ saved st1,
      createRegistration emptyStore "u" adaInput 1 false false =
        ({ status := 201, success := true
           message := "Registration created successfully"
           registration := some saved }, st1, [.storeQuery, .storeAdd]) ∧
      createRegistration st1 "u" adaInput 2 false false =
        ({ status := 409, success := false
           message := "User already has a registration. Please update instead."
           registration := some saved }, st1, [.storeQuery])) :=
  ⟨rfl, by decide,
   create_then_create_conflict emptyStore "u" adaInput adaInput 1 2 rfl
     (by decide) (by decide)⟩

/-- C2: for every request to a protected route whose Authorization
header is absent or does not split into exactly the two parts
`Bearer <token>`, the response is 401 and no identity-provider or
document-store call is made before that response (the external-call
trace is empty). -/
theorem malformed_header_rejected (p : Provider) (st : Store)
    (udf dtf : Bool) (header : String)
    (hbad : header = "" ∨ (splitCh ' ' header).length ≠ 2 ∨
            (splitCh ' ' header).headD "" ≠ "Bearer") :
    ∃ msg, requireAuth p st udf dtf header = (.reject 401 msg, []) := by
  by_cases h0 : header = ""
  · exact ⟨"Authorization header is required", by simp [requireAuth, h0]⟩
  · have hcond : (splitCh ' ' header).length ≠ 2 ∨
        (splitCh ' ' header).headD "" ≠ "Bearer" := by
      rcases hbad with h | h | h
      · exact absurd h h0
      · exact Or.inl h
      · exact Or.inr h
    refine ⟨"Invalid authorization header format. Use: Bearer <token>", ?_⟩
    unfold requireAuth
    rw [if_neg h0]
    show (if (splitCh ' ' header).length ≠ 2 ∨
            (splitCh ' ' header).headD "" ≠ "Bearer" then
            (AuthOutcome.reject 401
              "Invalid authorization header format. Use: Bearer <token>", [])
          else
            resolveToken p st udf dtf ((splitCh ' ' header).getD 1 "")) = _
    rw [if_pos hcond]

/-- C2 witness: a header with no space is rejected without any external
call. -/
theorem malformed_header_rejected_witness :
    ("Bearertok" = "" ∨ (splitCh ' ' "Bearertok").length ≠ 2 ∨
      (splitCh ' ' "Bearertok").headD "" ≠ "Bearer") ∧
    (∃ msg, requireAuth demoProvider demoStore false false "Bearertok" =
      (.reject 401 msg, [])) :=
  ⟨by decide,
   malformed_header_rejected demoProvider demoStore false false "Bearertok"
     (by decide)⟩

/-- C3: for every credential the provider verifies successfully and
whose user record is fetchable, resolution succeeds with an identity
whose subject identifier equals the verified token's subject, for every
store content and every outcome of the Profile enrichment read; when the
Profile is missing or unreadable the identity is the base user with
zero-valued enrichment fields. -/
theorem resolve_subject_and_enrichment (p : Provider) (st : Store)
    (udf dtf : Bool) (t s : String) (rec : UserRecord)
    (hv : p.verifyIDToken t = some s)
    (hg : p.getUser s = some rec)
    (hrec : rec.uid = s) :
    ∃ u : User,
      (resolveToken p st udf dtf t).1 = .accept u s ∧
      u.uid = s ∧
      ((udf = true ∨ st.users.find? (fun v => v.uid == s) = none ∨ dtf = true) →
        u = baseUser rec) := by
  cases udf with
  | true =>
    refine ⟨baseUser rec, ?_, ?_, fun _ => rfl⟩
    · simp [resolveToken, hv, hg]
    · simp [baseUser, hrec]
  | false =>
    cases hfind : st.users.find? (fun v => v.uid == s) with
    | none =>
      refine ⟨baseUser rec, ?_, ?_, fun _ => rfl⟩
      · simp [resolveToken, hv, hg, hfind]
      · simp [baseUser, hrec]
    | some fsUser =>
      cases dtf with
      | true =>
        refine ⟨baseUser rec, ?_, ?_, fun _ => rfl⟩
        · simp [resolveToken, hv, hg, hfind]
        · simp [baseUser, hrec]
      | false =>
        refine ⟨{ baseUser rec with
                  createdAt := fsUser.createdAt, updatedAt := fsUser.updatedAt
                  lastLoginAt := fsUser.lastLoginAt, provider := fsUser.provider },
                ?_, ?_, ?_⟩
        · simp [resolveToken, hv, hg, hfind]
        · simp [baseUser, hrec]
        · intro hor
          rcases hor with h | h | h
          · exact absurd h (by simp)
          · exact absurd h (by simp)
          · exact absurd h (by simp)

/-- C3 witness: the demo provider's token `"tok"` resolves to subject
`"u"` with the demo store's profile available. -/
theorem resolve_subject_and_enrichment_witness :
    demoProvider.verifyIDToken "tok" = some "u" ∧
    demoProvider.getUser "u" = some demoRecord ∧
    demoRecord.uid = "u" ∧
    (∃ u : User,
      (resolveToken demoProvider demoStore false false "tok").1 = .accept u "u" ∧
      u.uid = "u" ∧
      ((false = true ∨ demoStore.users.find? (fun v => v.uid == "u") = none ∨
        false = true) → u = baseUser demoRecord)) :=
  ⟨rfl, rfl, rfl,
   resolve_subject_and_enrichment demoProvider demoStore false false "tok" "u"
     demoRecord rfl rfl rfl⟩

/-- Reduction of `requireAuth` on a well-formed `Bearer` header. -/
theorem requireAuth_parsed (p : Provider) (st : Store) (udf dtf : Bool)
    (header : String) (h0 : header ≠ "")
    (hlen : (splitCh ' ' header).length = 2)
    (hhd : (splitCh ' ' header).headD "" = "Bearer") :
    requireAuth p st udf dtf header =
      resolveToken p st udf dtf ((splitCh ' ' header).getD 1 "") := by
  unfold requireAuth
  rw [if_neg h0]
  show (if (splitCh ' ' header).length ≠ 2 ∨
          (splitCh ' ' header).headD "" ≠ "Bearer" then
          (AuthOutcome.reject 401
            "Invalid authorization header format. Use: Bearer <token>", [])
        else resolveToken p st udf dtf ((splitCh ' ' header).getD 1 "")) = _
  rw [if_neg (by rintro (hc | hc)
                 · exact hc hlen
                 · exact hc hhd)]

/-- Reduction of `optionalAuth` on a well-formed `Bearer` header. -/
theorem optionalAuth_parsed (p : Provider) (header : String)
    (h0 : header ≠ "")
    (hlen : (splitCh ' ' header).length = 2)
    (hhd : (splitCh ' ' header).headD "" = "Bearer") :
    optionalAuth p header = optResolveToken p ((splitCh ' ' header).getD 1 "") := by
  unfold optionalAuth
  rw [if_neg h0]
  show (if (splitCh ' ' header).length ≠ 2 ∨
          (splitCh ' ' header).headD "" ≠ "Bearer" then
          (OptOutcome.anonymous, [])
        else optResolveToken p ((splitCh ' ' header).getD 1 "")) = _
  rw [if_neg (by rintro (hc | hc)
                 · exact hc hlen
                 · exact hc hhd)]

/-- If `resolveToken` accepts then the token verified to the accepted
uid and the user record for that uid was fetchable. -/
theorem resolveToken_accept_uid (p : Provider) (st : Store) (udf dtf : Bool)
    (t : String) (u : User) (uid : String)
    (hacc : (resolveToken p st udf dtf t).1 = .accept u uid) :
    p.verifyIDToken t = some uid ∧ ∃ rec, p.getUser uid = some rec := by
  cases hv : p.verifyIDToken t with
  | none => simp [resolveToken, hv] at hacc
  | some uid' =>
    cases hg : p.getUser uid' with
    | none => simp [resolveToken, hv, hg] at hacc
    | some rec =>
      simp only [resolveToken, hv, hg] at hacc
      have huid : uid' = uid := by
        have h2 := congrArg (fun o => match o with
          | AuthOutcome.accept _ i => i
          | AuthOutcome.reject _ _ => "") hacc
        simpa using h2
      subst huid
      exact ⟨rfl, rec, hg⟩

/-- The enriched identity the required-auth path produces for the demo
provider and store. -/
def enrichedDemoUser : User :=
  { baseUser demoRecord with
    createdAt := demoProfile.createdAt, updatedAt := demoProfile.updatedAt
    lastLoginAt := demoProfile.lastLoginAt, provider := demoProfile.provider }

/-- C7 counterexample: on one and the same successful request the
required-auth path attaches a Profile-enriched identity while the
optional-auth path attaches the unenriched base identity and performs no
store read at all — so the two entry points do not differ only in how
failures are handled, refuting the claim that the optional path performs
the same steps including the enrichment merge. -/
theorem optional_auth_same_steps_cex :
    (requireAuth demoProvider demoStore false false "Bearer tok").1 =
      .accept enrichedDemoUser "u" ∧
    (optionalAuth demoProvider "Bearer tok").1 =
      .identified (baseUser demoRecord) "u" ∧
    baseUser demoRecord ≠ enrichedDemoUser ∧
    ExtCall.storeGet ∈ (requireAuth demoProvider demoStore false false "Bearer tok").2 ∧
    ExtCall.storeGet ∉ (optionalAuth demoProvider "Bearer tok").2 := by
  decide

/-- C7 (amended): the optional-auth entry point performs the same header
parsing, token verification and user-record fetch as the required-auth
path but omits the Profile enrichment read; every failure of those steps
yields no identity and lets the request proceed, and on success the
attached identity is the unenriched base user. -/
theorem optionalAuth_refines_requireAuth (p : Provider) (st : Store)
    (udf dtf : Bool) (header : String) :
    (∀ s m, (requireAuth p st udf dtf header).1 = .reject s m →
       optionalAuth p header = (.anonymous, (requireAuth p st udf dtf header).2)) ∧
    (∀ u uid, (requireAuth p st udf dtf header).1 = .accept u uid →
       ∃ rec, p.getUser uid = some rec ∧
         optionalAuth p header =
           (.identified (baseUser rec) uid, [.providerVerify, .providerGetUser])) ∧
    ExtCall.storeGet ∉ (optionalAuth p header).2 := by
  by_cases h0 : header = ""
  · refine ⟨fun s m _ => ?_, fun u uid hacc => ?_, ?_⟩
    · simp [requireAuth, optionalAuth, h0]
    · simp [requireAuth, h0] at hacc
    · simp [optionalAuth, h0]
  · by_cases h1 : (splitCh ' ' header).length ≠ 2 ∨
        (splitCh ' ' header).headD "" ≠ "Bearer"
    · have hreq : requireAuth p st udf dtf header =
          (.reject 401 "Invalid authorization header format. Use: Bearer <token>", []) := by
        unfold requireAuth
        rw [if_neg h0]
        show (if (splitCh ' ' header).length ≠ 2 ∨
                (splitCh ' ' header).headD "" ≠ "Bearer" then
                (AuthOutcome.reject 401
                  "Invalid authorization header format. Use: Bearer <token>", [])
              else resolveToken p st udf dtf ((splitCh ' ' header).getD 1 "")) = _
        rw [if_pos h1]
      have hopt : optionalAuth p header = (.anonymous, []) := by
        unfold optionalAuth
        rw [if_neg h0]
        show (if (splitCh ' ' header).length ≠ 2 ∨
                (splitCh ' ' header).headD "" ≠ "Bearer" then
                (OptOutcome.anonymous, [])
              else optResolveToken p ((splitCh ' ' header).getD 1 "")) = _
        rw [if_pos h1]
      refine ⟨fun s m _ => ?_, fun u uid hacc => ?_, ?_⟩
      · rw [hopt, hreq]
      · rw [hreq] at hacc
        simp at hacc
      · rw [hopt]
        decide
    · push_neg at h1
      obtain ⟨hlen, hhd⟩ := h1
      have hreq := requireAuth_parsed p st udf dtf header h0 hlen hhd
      have hopt := optionalAuth_parsed p header h0 hlen hhd
      set tok := (splitCh ' ' header).getD 1 "" with htok
      cases hv : p.verifyIDToken tok with
      | none =>
        refine ⟨fun s m _ => ?_, fun u uid hacc => ?_, ?_⟩
        · rw [hopt, hreq]
          simp [resolveToken, optResolveToken, hv]
        · rw [hreq] at hacc
          simp [resolveToken, hv] at hacc
        · rw [hopt]
          simp [optResolveToken, hv]
      | some uid' =>
        cases hg : p.getUser uid' with
        | none =>
          refine ⟨fun s m _ => ?_, fun u uid hacc => ?_, ?_⟩
          · rw [hopt, hreq]
            simp [resolveToken, optResolveToken, hv, hg]
          · rw [hreq] at hacc
            simp [resolveToken, hv, hg] at hacc
          · rw [hopt]
            simp [optResolveToken, hv, hg]
        | some rec =>
          refine ⟨fun s m hrej => ?_, fun u uid hacc => ?_, ?_⟩
          · rw [hreq] at hrej
            simp [resolveToken, hv, hg] at hrej
          · rw [hreq] at hacc
            obtain ⟨hvu, rec', hgu⟩ :=
              resolveToken_accept_uid p st udf dtf tok u uid hacc
            refine ⟨rec', hgu, ?_⟩
            rw [hopt]
            simp [optResolveToken, hvu, hgu]
          · rw [hopt]
            simp [optResolveToken, hv, hg]

/-- C7 amended-claim witness: the demo success case, where the required
path accepts and the optional path attaches the base user. -/
theorem optionalAuth_refines_requireAuth_witness :
    (requireAuth demoProvider demoStore false false "Bearer tok").1 =
      .accept enrichedDemoUser "u" ∧
    (∃ rec, demoProvider.getUser "u" = some rec ∧
      optionalAuth demoProvider "Bearer tok" =
        (.identified (baseUser rec) "u", [.providerVerify, .providerGetUser])) :=
  ⟨by decide,
   (optionalAuth_refines_requireAuth demoProvider demoStore false false
     "Bearer tok").2.1 enrichedDemoUser "u" (by decide)⟩

/-- The stored registration produced by the Ada scenario's create. -/
def adaStored : Registration :=
  { newRegistration "u" adaInput 1 with id := mkDocId 0 }

/-- The store after the Ada scenario's create. -/
def adaStore : Store := { emptyStore with registrations := [adaStored], nextId := 1 }

/-- The update input of the Ada scenario (city set to London). -/
def londonInput : RegistrationInput := { adaInput with city := "London" }

/-- Reduction of `updateRegistration` when the pre-read finds `r`, the
input is valid and the merge-write succeeds (the post-read fault `pf` is
arbitrary). -/
theorem updateRegistration_found (st : Store) (uid : String)
    (i : RegistrationInput) (now : Nat) (r : Registration) (pf : Bool)
    (hex : getUserRegistration st uid false = .ok r)
    (hv : validInput i = true) :
    updateRegistration st uid i now false false pf =
      ({ status := 200, success := true
         message := "Registration updated successfully"
         registration :=
           match getUserRegistration
               { st with registrations := st.registrations.map (fun d => if d.id == r.id then mergeUpdate d i now else d) }
               uid pf with
           | .ok r2 => some r2
           | .error _ => none },
       { st with registrations := st.registrations.map (fun d => if d.id == r.id then mergeUpdate d i now else d) },
       [.storeQuery, .storeSet, .storeQuery]) := by
  unfold updateRegistration
  rw [if_neg (show ¬ ¬ (validInput i = true) by simp [hv])]
  rw [hex]
  rfl

/-- C5: update writes only the user-editable fields plus
`updatedAt = now`, leaving `paymentStatus`, `registrationDate`,
`createdAt` and the document id unchanged; the subsequent `getBySubject`
on the updated store returns the merged record, which reflects the
modified fields while those four are preserved. -/
theorem update_merge_frame (st : Store) (uid : String) (i : RegistrationInput)
    (now : Nat) (r : Registration)
    (hex : getUserRegistration st uid false = .ok r)
    (hv : validInput i = true) :
    (updateRegistration st uid i now false false false).1 =
      { status := 200, success := true
        message := "Registration updated successfully"
        registration := some (mergeUpdate r i now) } ∧
    getUserRegistration (updateRegistration st uid i now false false false).2.1
      uid false = .ok (mergeUpdate r i now) ∧
    (mergeUpdate r i now).paymentStatus = r.paymentStatus ∧
    (mergeUpdate r i now).registrationDate = r.registrationDate ∧
    (mergeUpdate r i now).createdAt = r.createdAt ∧
    (mergeUpdate r i now).id = r.id ∧
    (mergeUpdate r i now).userId = r.userId ∧
    (mergeUpdate r i now).updatedAt = now ∧
    (mergeUpdate r i now).firstName = i.firstName ∧
    (mergeUpdate r i now).lastName = i.lastName ∧
    (mergeUpdate r i now).email = i.email ∧
    (mergeUpdate r i now).phone = i.phone ∧
    (mergeUpdate r i now).organization = i.organization ∧
    (mergeUpdate r i now).jobTitle = i.jobTitle ∧
    (mergeUpdate r i now).country = i.country ∧
    (mergeUpdate r i now).city = i.city ∧
    (mergeUpdate r i now).dietaryReqs = i.dietaryReqs ∧
    (mergeUpdate r i now).specialNeeds = i.specialNeeds ∧
    (mergeUpdate r i now).ticketType = i.ticketType ∧
    (mergeUpdate r i now).sessionsOfInt = i.sessionsOfInt := by
  have hfind : st.registrations.find? (fun d => d.userId == uid) = some r :=
    (getUserRegistration_ok_iff st uid r).mp hex
  have hpres : ∀ d : Registration,
      ((if d.id == r.id then mergeUpdate d i now else d).userId == uid) =
      (d.userId == uid) := by
    intro d
    by_cases h : d.id == r.id <;> simp [h, mergeUpdate]
  have hok' : getUserRegistration
      { st with registrations := st.registrations.map (fun d => if d.id == r.id then mergeUpdate d i now else d) } uid false =
      .ok (mergeUpdate r i now) := by
    rw [getUserRegistration_ok_iff]
    show (st.registrations.map _).find? _ = _
    rw [find?_map_pres _ _ hpres, hfind]
    simp
  have heq := updateRegistration_found st uid i now r false hex hv
  refine ⟨?_, ?_, rfl, rfl, rfl, rfl, rfl, rfl, rfl, rfl, rfl, rfl, rfl, rfl,
    rfl, rfl, rfl, rfl, rfl, rfl⟩
  · rw [heq, hok']
  · rw [heq]
    exact hok'

/-- C5 witness: the Ada scenario, updating the city to London. -/
theorem update_merge_frame_witness :
    getUserRegistration adaStore "u" false = .ok adaStored ∧
    validInput londonInput = true ∧
    ((updateRegistration adaStore "u" londonInput 5 false false false).1 =
      { status := 200, success := true
        message := "Registration updated successfully"
        registration := some (mergeUpdate adaStored londonInput 5) } ∧
     getUserRegistration
       (updateRegistration adaStore "u" londonInput 5 false false false).2.1
       "u" false = .ok (mergeUpdate adaStored londonInput 5) ∧
     (mergeUpdate adaStored londonInput 5).paymentStatus = adaStored.paymentStatus ∧
     (mergeUpdate adaStored londonInput 5).registrationDate = adaStored.registrationDate ∧
     (mergeUpdate adaStored londonInput 5).createdAt = adaStored.createdAt ∧
     (mergeUpdate adaStored londonInput 5).id = adaStored.id ∧
     (mergeUpdate adaStored londonInput 5).userId = adaStored.userId ∧
     (mergeUpdate adaStored londonInput 5).updatedAt = 5 ∧
     (mergeUpdate adaStored londonInput 5).firstName = londonInput.firstName ∧
     (mergeUpdate adaStored londonInput 5).lastName = londonInput.lastName ∧
     (mergeUpdate adaStored londonInput 5).email = londonInput.email ∧
     (mergeUpdate adaStored londonInput 5).phone = londonInput.phone ∧
     (mergeUpdate adaStored londonInput 5).organization = londonInput.organization ∧
     (mergeUpdate adaStored londonInput 5).jobTitle = londonInput.jobTitle ∧
     (mergeUpdate adaStored londonInput 5).country = londonInput.country ∧
     (mergeUpdate adaStored londonInput 5).city = londonInput.city ∧
     (mergeUpdate adaStored londonInput 5).dietaryReqs = londonInput.dietaryReqs ∧
     (mergeUpdate adaStored londonInput 5).specialNeeds = londonInput.specialNeeds ∧
     (mergeUpdate adaStored londonInput 5).ticketType = londonInput.ticketType ∧
     (mergeUpdate adaStored londonInput 5).sessionsOfInt = londonInput.sessionsOfInt) :=
  ⟨rfl, by decide,
   update_merge_frame adaStore "u" londonInput 5 adaStored rfl (by decide)⟩

/-- C8: for every create or update request whose input fails
required-field validation, the response is 400, the store is unchanged
and no external call at all is made (so nothing is persisted or
modified). -/
theorem invalid_input_rejected_no_store (st : Store) (uid : String)
    (i : RegistrationInput) (now : Nat) (qf af prf sf pof : Bool)
    (hv : validInput i = false) :
    createRegistration st uid i now qf af =
      ({ status := 400, success := false
         message := "Invalid request: validation failed", registration := none },
       st, []) ∧
    updateRegistration st uid i now prf sf pof =
      ({ status := 400, success := false
         message := "Invalid request: validation failed", registration := none },
       st, []) := by
  constructor <;> simp [createRegistration, updateRegistration, hv]

/-- C8 witness: create and update with an empty first name are both
rejected with 400 and no store access. -/
theorem invalid_input_rejected_no_store_witness :
    validInput { adaInput with firstName := "" } = false ∧
    (createRegistration adaStore "u" { adaInput with firstName := "" } 7 false false =
      ({ status := 400, success := false
         message := "Invalid request: validation failed", registration := none },
       adaStore, []) ∧
     updateRegistration adaStore "u" { adaInput with firstName := "" } 7 false false false =
      ({ status := 400, success := false
         message := "Invalid request: validation failed", registration := none },
       adaStore, [])) :=
  ⟨by decide,
   invalid_input_rejected_no_store adaStore "u" { adaInput with firstName := "" }
     7 false false false false false (by decide)⟩

/-- C9: when the duplicate-check read fails with an error, create
discards the error and inserts a new document even though the subject
already has a stored Registration, leaving at least two Registration
documents for that subject. -/
theorem create_inserts_despite_query_error (st : Store) (uid : String)
    (i : RegistrationInput) (now : Nat) (r0 : Registration)
    (hr0 : r0 ∈ st.registrations) (hu : r0.userId = uid)
    (hv : validInput i = true) :
    ∃ saved : Registration,
      createRegistration st uid i now true false =
        ({ status := 201, success := true
           message := "Registration created successfully"
           registration := some saved },
         { st with registrations := st.registrations ++ [saved]
                   nextId := st.nextId + 1 },
         [.storeQuery, .storeAdd]) ∧
      saved.userId = uid ∧
      2 ≤ (st.registrations ++ [saved]).countP (fun d => d.userId == uid) := by
  refine ⟨{ newRegistration uid i now with id := mkDocId st.nextId }, ?_, rfl, ?_⟩
  · simp [createRegistration, getUserRegistration, hv]
  · rw [List.countP_append]
    have h1 : 0 < st.registrations.countP (fun d => d.userId == uid) := by
      rw [List.countP_pos_iff]
      exact ⟨r0, hr0, by simp [hu]⟩
    have h2 : ([{ newRegistration uid i now with id := mkDocId st.nextId }] :
        List Registration).countP (fun d => d.userId == uid) = 1 := by
      simp [List.countP_cons, newRegistration]
    omega

/-- C9 witness: a store that already holds Ada's registration receives a
second one for the same subject when the duplicate-check read errors. -/
theorem create_inserts_despite_query_error_witness :
    adaStored ∈ adaStore.registrations ∧
    adaStored.userId = "u" ∧
    validInput adaInput = true ∧
    (∃ saved : Registration,
      createRegistration adaStore "u" adaInput 9 true false =
        ({ status := 201, success := true
           message := "Registration created successfully"
           registration := some saved },
         { adaStore with registrations := adaStore.registrations ++ [saved]
                         nextId := adaStore.nextId + 1 },
         [.storeQuery, .storeAdd]) ∧
      saved.userId = "u" ∧
      2 ≤ (adaStore.registrations ++ [saved]).countP (fun d => d.userId == "u")) :=
  ⟨by decide, by decide, by decide,
   create_inserts_despite_query_error adaStore "u" adaInput 9 adaStored
     (by decide) (by decide) (by decide)⟩

/-- C10: when the merge-write succeeds but the post-update re-read
fails, update still responds 200 with the message "Registration updated
successfully" and no registration record in the response, while the
store does contain the merged document. -/
theorem update_success_despite_reread_failure (st : Store) (uid : String)
    (i : RegistrationInput) (now : Nat) (r : Registration)
    (hex : getUserRegistration st uid false = .ok r)
    (hv : validInput i = true) :
    (updateRegistration st uid i now false false true).1 =
      { status := 200, success := true
        message := "Registration updated successfully"
        registration := none } ∧
    (updateRegistration st uid i now false false true).2.1 =
      { st with registrations := st.registrations.map (fun d => if d.id == r.id then mergeUpdate d i now else d) } := by
  have heq := updateRegistration_found st uid i now r true hex hv
  constructor
  · rw [heq]
    rfl
  · rw [heq]

/-- C10 witness: the Ada scenario with a failing re-read still reports
success with no record attached. -/
theorem update_success_despite_reread_failure_witness :
    getUserRegistration adaStore "u" false = .ok adaStored ∧
    validInput londonInput = true ∧
    ((updateRegistration adaStore "u" londonInput 5 false false true).1 =
      { status := 200, success := true
        message := "Registration updated successfully"
        registration := none } ∧
     (updateRegistration adaStore "u" londonInput 5 false false true).2.1 =
      { adaStore with registrations := adaStore.registrations.map (fun d => if d.id == adaStored.id then mergeUpdate d londonInput 5 else d) }) :=
  ⟨rfl, by decide,
   update_success_despite_reread_failure adaStore "u" londonInput 5 adaStored
     rfl (by decide)⟩

/-- `docRef.Set` on the `users` collection stores exactly the written
document: looking the uid up afterwards returns the full new value. -/
theorem setUserDoc_find (users : List User) (u : User) :
    (setUserDoc users u).find? (fun v => v.uid == u.uid) = some u := by
  unfold setUserDoc
  by_cases h : users.any (fun v => v.uid == u.uid)
  · rw [if_pos h]
    have hpres : ∀ x : User,
        ((if x.uid == u.uid then u else x).uid == u.uid) = (x.uid == u.uid) := by
      intro x
      by_cases hx : x.uid == u.uid <;> simp [hx]
    rw [find?_map_pres _ _ hpres]
    obtain ⟨p0, hp0mem, hp0⟩ := List.any_eq_true.mp h
    cases hf : users.find? (fun v => v.uid == u.uid) with
    | none =>
      rw [List.find?_eq_none] at hf
      exact absurd hp0 (hf p0 hp0mem)
    | some q =>
      have hq2 : q.uid = u.uid := by simpa using List.find?_some hf
      simp [hq2]
  · rw [if_neg h]
    have hnone : users.find? (fun v => v.uid == u.uid) = none := by
      rw [List.find?_eq_none]
      intro x hx hpx
      exact h (List.any_eq_true.mpr ⟨x, hx, hpx⟩)
    rw [List.find?_append, hnone]
    simp

/-- C6 counterexample: the stored Profile for `"u"` has
`emailVerified = true`; a subsequent Google login (which never sets
`emailVerified`) upserts, and afterwards the stored Profile has
`emailVerified = false` — the untouched field was NOT left intact, so
the upsert does not have merge semantics (`docRef.Set` without a merge
option replaces the whole document). -/
theorem profile_upsert_not_merge_cex :
    (demoStore.users.find? (fun v => v.uid == "u")).map User.emailVerified =
      some true ∧
    (saveUserToFirestore demoStore (googleLoginUser demoRecord 10) 10
        false false false).toOption.map
      (fun st => (st.users.find? (fun v => v.uid == "u")).map User.emailVerified) =
      some (some false) := by
  decide

/-- C6 (amended): the login/profile-upsert sets `createdAt = now` when
no Profile document exists and preserves the stored `createdAt` when one
does, always setting `updatedAt = now`; but the write on a subsequent
login is a full-document replace, not a merge: afterwards the stored
Profile is exactly the login's user value (with the adjusted
timestamps), so fields the login does not set are overwritten with their
zero values rather than left intact. -/
theorem profile_upsert_behavior (st : Store) (user : User) (now : Nat) :
    (st.users.find? (fun v => v.uid == user.uid) = none →
      saveUserToFirestore st user now false false false =
        .ok { st with users := setUserDoc st.users { user with createdAt := now, updatedAt := now } }) ∧
    (∀ p0, st.users.find? (fun v => v.uid == user.uid) = some p0 →
      saveUserToFirestore st user now false false false =
        .ok { st with users := setUserDoc st.users { user with createdAt := p0.createdAt, updatedAt := now } } ∧
      (setUserDoc st.users
          { user with createdAt := p0.createdAt, updatedAt := now }).find?
          (fun v => v.uid == user.uid) =
        some { user with createdAt := p0.createdAt, updatedAt := now }) := by
  constructor
  · intro h
    simp [saveUserToFirestore, h]
  · intro p0 h
    refine ⟨by simp [saveUserToFirestore, h], ?_⟩
    exact setUserDoc_find st.users { user with createdAt := p0.createdAt, updatedAt := now }

/-- C6 amended-claim witness: a subsequent login over the demo profile
preserves `createdAt = 3`, sets `updatedAt = 10`, and fully replaces the
stored document. -/
theorem profile_upsert_behavior_witness :
    demoStore.users.find?
      (fun v => v.uid == (googleLoginUser demoRecord 10).uid) = some demoProfile ∧
    (saveUserToFirestore demoStore (googleLoginUser demoRecord 10) 10 false false false =
      .ok { demoStore with users := setUserDoc demoStore.users { googleLoginUser demoRecord 10 with createdAt := demoProfile.createdAt, updatedAt := 10 } } ∧
     (setUserDoc demoStore.users
         { googleLoginUser demoRecord 10 with
           createdAt := demoProfile.createdAt, updatedAt := 10 }).find?
         (fun v => v.uid == (googleLoginUser demoRecord 10).uid) =
       some { googleLoginUser demoRecord 10 with
              createdAt := demoProfile.createdAt, updatedAt := 10 }) :=
  ⟨rfl,
   (profile_upsert_behavior demoStore (googleLoginUser demoRecord 10) 10).2
     demoProfile rfl⟩

end ITC
